import Mathlib

/-!
Verification of the Mermaid-Layout grid-annotation tool.

The development shallowly embeds the grid data model, the cell-state cycle,
grid seeding, the mouse click handler of `src/editor_prototype.py`, and the
JSON grid codec plus the read-only layout query API (modelled from the spec,
as `grid_api.py` and `layout-api.py` are not part of the sources here).
-/

namespace MermaidLayout

/-- Cell state FREE (value 0, from the grid data model). -/
def FREE : Int := 0

/-- Cell state OBSTACLE (value 1, from the grid data model). -/
def OBSTACLE : Int := 1

/-- Cell state HOME (value 2, from the grid data model). -/
def HOME : Int := 2

/-- A grid is a 2-D array of integer cell states. -/
abbrev Grid := List (List Int)

/-- The next-state lookup used by `_handle_mouse`: the Python dict
`\x7bFREE: OBSTACLE, OBSTACLE: HOME, HOME: FREE\x7d` indexed at the current
value; a key outside the three states raises `KeyError`, modelled as `none`. -/
def next_state (current : Int) : Option Int :=
  if current = FREE then some OBSTACLE
  else if current = OBSTACLE then some HOME
  else if current = HOME then some FREE
  else none

/-- `_seed_grid` from `editor_prototype.py`: build a `rows × cols` grid of
`FREE`, copying any persisted value whose row and column indices fit. -/
def seed_grid (rows cols : Nat) (persisted : List (List Int)) : Grid :=
  (List.range rows).map fun row_idx =>
    (List.range cols).map fun col_idx =>
      match persisted[row_idx]? with
      | some row =>
        match row[col_idx]? with
        | some v => v
        | none => FREE
      | none => FREE

/-- Cell access `g[r][c]`, `none` when an index is out of range
(Python `IndexError`). -/
def cellAt (g : Grid) (r c : Nat) : Option Int :=
  (g[r]?).bind fun row => row[c]?

/-- The `cv2.EVENT_LBUTTONDOWN` constant compared against by `_handle_mouse`. -/
def EVENT_LBUTTONDOWN : Int := 1

/-- Result of `overlay.get_grid_cell_from_rectified`: a dict with keys
`row`, `col`, `in_bounds`. -/
structure CellInfo where
  row : Nat
  col : Nat
  in_bounds : Bool
deriving DecidableEq

/-- The slice of `EditorState` the mouse handler reads: the mutable grid, the
external overlay collaborator (as the function `get_grid_cell_from_rectified`),
and the stored pixel-to-canvas offsets. -/
structure EditorState where
  grid : Grid
  overlay : Int → Int → CellInfo
  offset_x : Int
  offset_y : Int

/-- `_rectified_to_grid_cell`: add the stored offsets to the click position,
ask the overlay for the cell, and return `none` when it reports out of bounds. -/
def rectified_to_grid_cell (x y : Int) (state : EditorState) : Option (Nat × Nat) :=
  let cell_info := state.overlay (x + state.offset_x) (y + state.offset_y)
  if cell_info.in_bounds = false then none
  else some (cell_info.row, cell_info.col)

/-- `_handle_mouse`: on a left-button press inside the arena, replace the
clicked cell by its `next_state`. The result is the grid after the handler
returns; `none` models an uncaught exception (`IndexError` on `grid[row][col]`
or `KeyError` on the next-state dict), in which case the assignment
`state.grid[row][col] = updated_value` is never reached. -/
def handle_mouse (event x y : Int) (state : EditorState) : Option Grid :=
  if event ≠ EVENT_LBUTTONDOWN then some state.grid
  else
    match rectified_to_grid_cell x y state with
    | none => some state.grid
    | some (row, col) =>
      match state.grid[row]? with
      | none => none
      | some grow =>
        match grow[col]? with
        | none => none
        | some current =>
          match next_state current with
          | none => none
          | some updated_value =>
            some (state.grid.set row (grow.set col updated_value))

/-- C1: the next-state function is defined on all of FREE, OBSTACLE, HOME,
returns the cyclic successor, and three applications return the start. -/
theorem next_state_cycle :
    next_state FREE = some OBSTACLE ∧
    next_state OBSTACLE = some HOME ∧
    next_state HOME = some FREE ∧
    ((next_state FREE).bind next_state).bind next_state = some FREE ∧
    ((next_state OBSTACLE).bind next_state).bind next_state = some OBSTACLE ∧
    ((next_state HOME).bind next_state).bind next_state = some HOME := by
  decide

/-- The shape half of the §3 invariant: every row has the same length. -/
def rectangular (g : Grid) : Prop :=
  ∀ row ∈ g, ∀ row' ∈ g, row.length = row'.length

/-- The data-model invariant of §3: every row has the same length and every
cell value is one of the three enum members. -/
def gridInvariant (g : Grid) : Prop :=
  (∀ row ∈ g, ∀ row' ∈ g, row.length = row'.length) ∧
  (∀ row ∈ g, ∀ v ∈ row, v = FREE ∨ v = OBSTACLE ∨ v = HOME)

instance (g : Grid) : Decidable (gridInvariant g) := by
  unfold gridInvariant; infer_instance

/-- C2: `_seed_grid` returns a rectangular `rows × cols` grid whose cell
`(r, c)` is the persisted value when both indices are in the persisted range
and `FREE` otherwise. -/
theorem seed_grid_spec (rows cols : Nat) (persisted : List (List Int))
    (r c : Nat) (hr : r < rows) (hc : c < cols) :
    (seed_grid rows cols persisted).length = rows ∧
    (∀ row ∈ seed_grid rows cols persisted, row.length = cols) ∧
    cellAt (seed_grid rows cols persisted) r c =
      some (((persisted[r]?).getD []).getD c FREE) := by
  refine ⟨by simp [seed_grid], ?_, ?_⟩
  · intro row hrow
    simp only [seed_grid, List.mem_map] at hrow
    obtain ⟨i, _, rfl⟩ := hrow
    simp
  · have h1 : (List.range rows)[r]? = some r := List.getElem?_range hr
    have h2 : (List.range cols)[c]? = some c := List.getElem?_range hc
    cases hpr : persisted[r]? with
    | none =>
      simp [cellAt, seed_grid, List.getElem?_map, h1, h2, hpr,
        List.getElem?_replicate, hc]
    | some prow =>
      cases hpc : prow[c]? with
      | none =>
        simp [cellAt, seed_grid, List.getElem?_map, h1, h2, hpr, hpc,
          List.getD_eq_getElem?_getD]
      | some v =>
        simp [cellAt, seed_grid, List.getElem?_map, h1, h2, hpr, hpc,
          List.getD_eq_getElem?_getD]

/-- C2 witness: seeding 3×3 from a persisted 5×5 grid, cell (1, 2) holds the
persisted value 23. -/
theorem seed_grid_spec_witness :
    (seed_grid 3 3 [[10, 11, 12, 13, 14], [20, 21, 22, 23, 24],
        [30, 31, 32, 33, 34], [40, 41, 42, 43, 44], [50, 51, 52, 53, 54]]).length = 3 ∧
    (∀ row ∈ seed_grid 3 3 [[10, 11, 12, 13, 14], [20, 21, 22, 23, 24],
        [30, 31, 32, 33, 34], [40, 41, 42, 43, 44], [50, 51, 52, 53, 54]], row.length = 3) ∧
    cellAt (seed_grid 3 3 [[10, 11, 12, 13, 14], [20, 21, 22, 23, 24],
        [30, 31, 32, 33, 34], [40, 41, 42, 43, 44], [50, 51, 52, 53, 54]]) 1 2 =
      some ((([[10, 11, 12, 13, 14], [20, 21, 22, 23, 24], [30, 31, 32, 33, 34],
        [40, 41, 42, 43, 44], [50, 51, 52, 53, 54]] : List (List Int))[1]?.getD []).getD 2 FREE) :=
  seed_grid_spec 3 3 _ 1 2 (by decide) (by decide)

/-- C3 counterexample: seeding copies persisted integers unvalidated, so the
grid built from the persisted value 5 violates the data-model invariant. -/
theorem grid_invariant_counterexample :
    ¬ gridInvariant (seed_grid 1 1 [[5]]) := by
  decide

theorem seed_grid_row_length (rows cols : Nat) (p : List (List Int))
    (row : List Int) (h : row ∈ seed_grid rows cols p) : row.length = cols := by
  simp only [seed_grid, List.mem_map] at h
  obtain ⟨i, -, rfl⟩ := h
  simp

theorem seed_grid_mem_val (rows cols : Nat) (p : List (List Int))
    (row : List Int) (hrow : row ∈ seed_grid rows cols p)
    (v : Int) (hv : v ∈ row) :
    v = FREE ∨ ∃ prow ∈ p, v ∈ prow := by
  simp only [seed_grid, List.mem_map] at hrow
  obtain ⟨r, -, rfl⟩ := hrow
  simp only [List.mem_map] at hv
  obtain ⟨c, -, hgc⟩ := hv
  cases hpr : p[r]? with
  | none => rw [hpr] at hgc; exact Or.inl hgc.symm
  | some prow =>
    simp only [hpr] at hgc
    cases hpc : prow[c]? with
    | none => simp only [hpc] at hgc; exact Or.inl hgc.symm
    | some w =>
      simp only [hpc] at hgc
      exact Or.inr ⟨prow, List.getElem?_mem hpr, hgc ▸ List.getElem?_mem hpc⟩

theorem next_state_mem (cur v : Int) (h : next_state cur = some v) :
    v = FREE ∨ v = OBSTACLE ∨ v = HOME := by
  unfold next_state at h
  split_ifs at h <;> simp only [Option.some.injEq, reduceCtorEq] at h <;>
    subst h <;> simp

theorem gridInvariant_set (g : Grid) (row col : Nat) (grow : List Int) (v' : Int)
    (hg : g[row]? = some grow)
    (hv' : v' = FREE ∨ v' = OBSTACLE ∨ v' = HOME)
    (hinv : gridInvariant g) :
    gridInvariant (g.set row (grow.set col v')) := by
  obtain ⟨hrect, hvals⟩ := hinv
  have hgrow : grow ∈ g := List.getElem?_mem hg
  constructor
  · intro r1 h1 r2 h2
    rcases List.mem_or_eq_of_mem_set h1 with h1' | h1' <;>
      rcases List.mem_or_eq_of_mem_set h2 with h2' | h2'
    · exact hrect r1 h1' r2 h2'
    · rw [h2', List.length_set]; exact hrect r1 h1' grow hgrow
    · rw [h1', List.length_set]; exact hrect grow hgrow r2 h2'
    · rw [h1', h2']
  · intro r1 h1 v hv
    rcases List.mem_or_eq_of_mem_set h1 with h1' | h1'
    · exact hvals r1 h1' v hv
    · rw [h1'] at hv
      rcases List.mem_or_eq_of_mem_set hv with hv2 | hv2
      · exact hvals grow hgrow v hv2
      · rw [hv2]; exact hv'

theorem handle_mouse_invariant (event x y : Int) (st : EditorState) (g' : Grid)
    (hinv : gridInvariant st.grid) (hrun : handle_mouse event x y st = some g') :
    gridInvariant g' := by
  by_cases he : event = EVENT_LBUTTONDOWN
  case neg =>
    simp only [handle_mouse, ne_eq, he, not_false_iff, if_true,
      Option.some.injEq] at hrun
    exact hrun ▸ hinv
  case pos =>
    subst he
    cases hcell : rectified_to_grid_cell x y st with
    | none =>
      simp only [handle_mouse, ne_eq, not_true_eq_false, if_false, hcell,
        Option.some.injEq] at hrun
      exact hrun ▸ hinv
    | some rc =>
      obtain ⟨row, col⟩ := rc
      cases hg : st.grid[row]? with
      | none => simp [handle_mouse, hcell, hg] at hrun
      | some grow =>
        cases hcc : grow[col]? with
        | none => simp [handle_mouse, hcell, hg, hcc] at hrun
        | some current =>
          cases hn : next_state current with
          | none => simp [handle_mouse, hcell, hg, hcc, hn] at hrun
          | some v' =>
            simp only [handle_mouse, ne_eq, not_true_eq_false, if_false, hcell,
              hg, hcc, hn, Option.some.injEq] at hrun
            exact hrun ▸ gridInvariant_set st.grid row col grow v' hg
              (next_state_mem current v' hn) ⟨hinv.1, hinv.2⟩

theorem rectangular_set (g : Grid) (row col : Nat) (grow : List Int) (v' : Int)
    (hg : g[row]? = some grow) (hrect : rectangular g) :
    rectangular (g.set row (grow.set col v')) := by
  have hgrow : grow ∈ g := List.getElem?_mem hg
  intro r1 h1 r2 h2
  rcases List.mem_or_eq_of_mem_set h1 with h1' | h1' <;>
    rcases List.mem_or_eq_of_mem_set h2 with h2' | h2'
  · exact hrect r1 h1' r2 h2'
  · rw [h2', List.length_set]; exact hrect r1 h1' grow hgrow
  · rw [h1', List.length_set]; exact hrect grow hgrow r2 h2'
  · rw [h1', h2']

theorem handle_mouse_eq (event x y : Int) (st : EditorState) (g' : Grid)
    (hrun : handle_mouse event x y st = some g') :
    g' = st.grid ∨
    ∃ row col grow current v', st.grid[row]? = some grow ∧
      grow[col]? = some current ∧ next_state current = some v' ∧
      g' = st.grid.set row (grow.set col v') := by
  by_cases he : event = EVENT_LBUTTONDOWN
  case neg =>
    simp only [handle_mouse, ne_eq, he, not_false_iff, if_true,
      Option.some.injEq] at hrun
    exact Or.inl hrun.symm
  case pos =>
    subst he
    cases hcell : rectified_to_grid_cell x y st with
    | none =>
      simp only [handle_mouse, ne_eq, not_true_eq_false, if_false, hcell,
        Option.some.injEq] at hrun
      exact Or.inl hrun.symm
    | some rc =>
      obtain ⟨row, col⟩ := rc
      cases hg : st.grid[row]? with
      | none => simp [handle_mouse, hcell, hg] at hrun
      | some grow =>
        cases hcc : grow[col]? with
        | none => simp [handle_mouse, hcell, hg, hcc] at hrun
        | some current =>
          cases hn : next_state current with
          | none => simp [handle_mouse, hcell, hg, hcc, hn] at hrun
          | some v' =>
            simp only [handle_mouse, ne_eq, not_true_eq_false, if_false, hcell,
              hg, hcc, hn, Option.some.injEq] at hrun
            exact Or.inr ⟨row, col, grow, current, v', hg, hcc, hn, hrun.symm⟩

theorem handle_mouse_rect (event x y : Int) (st : EditorState) (g' : Grid)
    (hrect : rectangular st.grid) (hrun : handle_mouse event x y st = some g') :
    rectangular g' := by
  rcases handle_mouse_eq event x y st g' hrun with
    rfl | ⟨row, col, grow, current, v', hg, hcc, hn, rfl⟩
  · exact hrect
  · exact rectangular_set st.grid row col grow v' hg hrect

/-- C3 (amended): every seeded grid is rectangular whatever the persisted
input, and the click handler preserves rectangularity, so every grid held by
the editor is rectangular; the value restriction to the three enum members is
established by seeding only when every persisted value is in range (persisted
integers are copied unvalidated), and the click handler preserves the full
invariant. -/
theorem grid_invariant_preserved (rows cols : Nat) (persisted : List (List Int)) :
    rectangular (seed_grid rows cols persisted) ∧
    ((∀ prow ∈ persisted, ∀ v ∈ prow, v = FREE ∨ v = OBSTACLE ∨ v = HOME) →
      gridInvariant (seed_grid rows cols persisted)) ∧
    (∀ event x y st g', rectangular st.grid →
      handle_mouse event x y st = some g' → rectangular g') ∧
    (∀ event x y st g', gridInvariant st.grid →
      handle_mouse event x y st = some g' → gridInvariant g') := by
  have hrect : rectangular (seed_grid rows cols persisted) := by
    intro r1 h1 r2 h2
    rw [seed_grid_row_length rows cols persisted r1 h1,
      seed_grid_row_length rows cols persisted r2 h2]
  refine ⟨hrect, fun hvals => ⟨hrect, ?_⟩, ?_, ?_⟩
  · intro row hrow v hv
    rcases seed_grid_mem_val rows cols persisted row hrow v hv with h | ⟨prow, hp, hvp⟩
    · exact Or.inl h
    · exact hvals prow hp v hvp
  · intro event x y st g' hr hrun
    exact handle_mouse_rect event x y st g' hr hrun
  · intro event x y st g' hinv hrun
    exact handle_mouse_invariant event x y st g' hinv hrun

/-- C3 witness: the grid seeded from the out-of-range value 5 is still
rectangular, and a concrete in-range persisted grid seeds to a fully
invariant grid. -/
theorem grid_invariant_preserved_witness :
    rectangular (seed_grid 1 1 [[5]]) ∧
    gridInvariant (seed_grid 2 2 [[0, 1], [2, 0]]) :=
  ⟨(grid_invariant_preserved 1 1 [[5]]).1,
   (grid_invariant_preserved 2 2 [[0, 1], [2, 0]]).2.1 (by decide)⟩

/-- C5 counterexample: with the grid seeded to the out-of-range value 5, a
left click that the overlay reports in bounds at cell (0, 0) raises `KeyError`
(result `none`) instead of replacing the cell by a cyclic successor. -/
theorem handle_mouse_frame_counterexample :
    handle_mouse EVENT_LBUTTONDOWN 0 0
      { grid := [[5]], overlay := fun _ _ => ⟨0, 0, true⟩,
        offset_x := 0, offset_y := 0 } = none ∧
    (({ grid := [[5]], overlay := fun _ _ => ⟨0, 0, true⟩,
        offset_x := 0, offset_y := 0 } : EditorState).overlay
      (0 + 0) (0 + 0)).in_bounds = true :=
  ⟨rfl, rfl⟩

/-- C5 (amended): a non-left-press or out-of-bounds click leaves the grid
unchanged; an in-bounds click on a cell currently holding one of the three
enum values replaces exactly that cell by its cyclic successor and leaves
every other cell unchanged; an in-bounds click on a cell holding any other
integer raises `KeyError` (no grid results, so no cell is replaced). -/
theorem handle_mouse_frame (event x y : Int) (st : EditorState) :
    (event ≠ EVENT_LBUTTONDOWN → handle_mouse event x y st = some st.grid) ∧
    ((st.overlay (x + st.offset_x) (y + st.offset_y)).in_bounds = false →
      handle_mouse event x y st = some st.grid) ∧
    (∀ r c current,
      st.overlay (x + st.offset_x) (y + st.offset_y) = ⟨r, c, true⟩ →
      cellAt st.grid r c = some current →
      (current = FREE ∨ current = OBSTACLE ∨ current = HOME) →
      event = EVENT_LBUTTONDOWN →
      ∃ g', handle_mouse event x y st = some g' ∧
        cellAt g' r c = next_state current ∧
        g'.length = st.grid.length ∧
        (∀ r', r' ≠ r → g'[r']? = st.grid[r']?) ∧
        (∀ c', c' ≠ c → cellAt g' r c' = cellAt st.grid r c')) ∧
    (∀ r c current,
      st.overlay (x + st.offset_x) (y + st.offset_y) = ⟨r, c, true⟩ →
      cellAt st.grid r c = some current →
      current ≠ FREE → current ≠ OBSTACLE → current ≠ HOME →
      event = EVENT_LBUTTONDOWN →
      handle_mouse event x y st = none) := by
  refine ⟨fun he => by simp [handle_mouse, he], fun hob => ?_, ?_, ?_⟩
  · by_cases he : event = EVENT_LBUTTONDOWN
    · subst he
      simp [handle_mouse, rectified_to_grid_cell, hob]
    · simp [handle_mouse, he]
  · intro r c current hov hcell hcur he
    subst he
    obtain ⟨grow, hg, hcc⟩ := Option.bind_eq_some.mp hcell
    obtain ⟨v', hn⟩ : ∃ v', next_state current = some v' := by
      rcases hcur with rfl | rfl | rfl <;> exact ⟨_, rfl⟩
    refine ⟨st.grid.set r (grow.set c v'), ?_, ?_, by simp, ?_, ?_⟩
    · simp [handle_mouse, rectified_to_grid_cell, hov, hg, hcc, hn]
    · rw [hn]
      simp only [cellAt, List.getElem?_set_self', hg, Option.map_eq_map,
        Option.map_some', Function.const_apply, Option.some_bind,
        List.getElem?_set_self', hcc]
    · intro r' hr'
      exact List.getElem?_set_ne hr'.symm
    · intro c' hc'
      simp only [cellAt, List.getElem?_set_self', hg, Option.map_eq_map,
        Option.map_some', Function.const_apply, Option.some_bind,
        List.getElem?_set_ne hc'.symm]
  · intro r c current hov hcell h1 h2 h3 he
    subst he
    obtain ⟨grow, hg, hcc⟩ := Option.bind_eq_some.mp hcell
    have hn : next_state current = none := by
      simp [next_state, h1, h2, h3]
    simp [handle_mouse, rectified_to_grid_cell, hov, hg, hcc, hn]

/-- C5 witness: a left click on a 1×1 FREE grid, reported in bounds at
(0, 0), updates exactly that cell; on a 1×1 grid holding the out-of-range
value 5 the same click raises. -/
theorem handle_mouse_frame_witness :
    (∃ g', handle_mouse EVENT_LBUTTONDOWN 0 0
        { grid := [[0]], overlay := fun _ _ => ⟨0, 0, true⟩,
          offset_x := 0, offset_y := 0 } = some g' ∧
      cellAt g' 0 0 = next_state FREE ∧
      g'.length = ([[0]] : Grid).length ∧
      (∀ r', r' ≠ 0 → g'[r']? = ([[0]] : Grid)[r']?) ∧
      (∀ c', c' ≠ 0 → cellAt g' 0 c' = cellAt [[0]] 0 c')) ∧
    handle_mouse EVENT_LBUTTONDOWN 0 0
      { grid := [[5]], overlay := fun _ _ => ⟨0, 0, true⟩,
        offset_x := 0, offset_y := 0 } = none :=
  ⟨(handle_mouse_frame EVENT_LBUTTONDOWN 0 0
      { grid := [[0]], overlay := fun _ _ => ⟨0, 0, true⟩,
        offset_x := 0, offset_y := 0 }).2.2.1 0 0 FREE rfl rfl (Or.inl rfl) rfl,
   (handle_mouse_frame EVENT_LBUTTONDOWN 0 0
      { grid := [[5]], overlay := fun _ _ => ⟨0, 0, true⟩,
        offset_x := 0, offset_y := 0 }).2.2.2 0 0 5 rfl rfl
      (by decide) (by decide) (by decide) rfl⟩

/-- Modelled from the spec: JSON values for the grid file, which §6 fixes as
a "JSON array of arrays of integers" (`grid_api.py` is not among the
sources; only its callers are). -/
inductive Json where
  | num (n : Int)
  | arr (elems : List Json)
  | str (s : String)

/-- Modelled from the spec: serialization of a grid "as nested integer
arrays" (§4.2 Write). -/
def encodeGrid (grid : Grid) : Json :=
  Json.arr (grid.map fun row => Json.arr (row.map Json.num))

/-- A JSON cell parses to its integer value. -/
def decodeCell : Json → Option Int
  | Json.num n => some n
  | _ => none

/-- A list of JSON cells parses when every element is an integer. -/
def decodeCells : List Json → Option (List Int)
  | [] => some []
  | c :: rest =>
    match decodeCell c with
    | none => none
    | some n =>
      match decodeCells rest with
      | none => none
      | some l => some (n :: l)

/-- A JSON row parses when it is an array of integers. -/
def decodeRow : Json → Option (List Int)
  | Json.arr cells => decodeCells cells
  | _ => none

/-- A list of JSON rows parses when every row does. -/
def decodeRows : List Json → Option Grid
  | [] => some []
  | r :: rest =>
    match decodeRow r with
    | none => none
    | some row =>
      match decodeRows rest with
      | none => none
      | some g => some (row :: g)

/-- Modelled from the spec: parsing "a JSON array-of-arrays of integers into
the grid" (§4.2 Read). -/
def decodeGrid : Json → Option Grid
  | Json.arr rows => decodeRows rows
  | _ => none

/-- A file store: the parsed contents of each path, `none` when the file is
missing. -/
abbrev FileStore := String → Option Json

/-- Modelled from the spec: `save_grid` of `grid_api.py` (§4.2 Write)
serializes the grid as nested integer arrays, overwriting the target file. -/
def save_grid (grid : Grid) (path : String) (fs : FileStore) : FileStore :=
  fun p => if p = path then some (encodeGrid grid) else fs p

/-- Modelled from the spec: `load_grid` of `grid_api.py` (§4.2 Read) parses
the JSON array-of-arrays at the path; a missing file yields an empty grid,
and a corrupt one is treated as empty (§7). -/
def load_grid (path : String) (fs : FileStore) : Grid :=
  match fs path with
  | none => []
  | some j => (decodeGrid j).getD []

theorem decodeCells_encode (row : List Int) :
    decodeCells (row.map Json.num) = some row := by
  induction row with
  | nil => rfl
  | cons a l ih => simp [decodeCells, decodeCell, ih]

theorem decodeRows_encode (g : Grid) :
    decodeRows (g.map fun row => Json.arr (row.map Json.num)) = some g := by
  induction g with
  | nil => rfl
  | cons row rest ih => simp [decodeRows, decodeRow, decodeCells_encode, ih]

theorem decodeGrid_encodeGrid (g : Grid) :
    decodeGrid (encodeGrid g) = some g := by
  simp [decodeGrid, encodeGrid, decodeRows_encode]

/-- C4: saving any grid and loading the same path yields the identical
array. -/
theorem save_load_round_trip (grid : Grid) (path : String) (fs : FileStore) :
    load_grid path (save_grid grid path fs) = grid := by
  simp [load_grid, save_grid, decodeGrid_encodeGrid]

/-- Modelled from the spec: the configurable symbol mapping of the layout
API (§4.3; `layout-api.py` is not among the sources), one display string per
cell category. -/
structure SymbolMap where
  free : String
  obstacle : String
  home : String

/-- Display string for a cell value; out-of-range values render as a
placeholder, as in the editor's `DISPLAY_SYMBOL.get(cell, "?")`. -/
def symbolFor (symbols : SymbolMap) (v : Int) : String :=
  if v = FREE then symbols.free
  else if v = OBSTACLE then symbols.obstacle
  else if v = HOME then symbols.home
  else "?"

/-- Modelled from the spec: the layout API reads "the same JSON file" as the
editor (§4.3), the grid file. -/
def GRID_JSON_PATH : String := "grid.json"

/-- Modelled from the spec: `get_map_json` returns the raw parsed
array-of-arrays; a missing file gives an empty result (§8). -/
def get_map_json (fs : FileStore) : Grid :=
  load_grid GRID_JSON_PATH fs

/-- Modelled from the spec: `get_map` returns a symbol-substituted copy of
the grid (§4.3). -/
def get_map (symbols : SymbolMap) (fs : FileStore) : List (List String) :=
  (get_map_json fs).map fun row => row.map (symbolFor symbols)

/-- Modelled from the spec: `get_map_as_string` joins the symbol rows with a
configurable cell separator, one line per row (§4.3). -/
def get_map_as_string (symbols : SymbolMap) (cell_separator : String)
    (fs : FileStore) : String :=
  String.intercalate "\n"
    ((get_map symbols fs).map fun row => String.intercalate cell_separator row)

/-- The statistics record reported by `get_map_info`, with the keys read by
`tests/test_layout_api.py` and `api/example_usage.py`. -/
structure MapInfo where
  rows : Nat
  cols : Nat
  total_cells : Nat
  free_count : Nat
  obstacle_count : Nat
  home_count : Nat
deriving DecidableEq

/-- Number of cells of the grid holding the given value. -/
def countVal (g : Grid) (v : Int) : Nat :=
  (g.map fun row => row.countP fun c => decide (c = v)).sum

/-- Modelled from the spec: `get_map_info` aggregates dimensions, the total
cell count and per-category counts of the grid file (§4.3, §8). -/
def get_map_info (fs : FileStore) : MapInfo :=
  let g := get_map_json fs
  { rows := g.length
    cols := (g.headD []).length
    total_cells := (g.map List.length).sum
    free_count := countVal g FREE
    obstacle_count := countVal g OBSTACLE
    home_count := countVal g HOME }

/-- C6: with the grid file missing, `load_grid` and every read-only query of
the layout API return an empty result instead of raising. -/
theorem missing_file_empty (fs : FileStore) (symbols : SymbolMap)
    (sep : String) (h : fs GRID_JSON_PATH = none) :
    load_grid GRID_JSON_PATH fs = [] ∧
    get_map_json fs = [] ∧
    get_map symbols fs = [] ∧
    get_map_as_string symbols sep fs = "" ∧
    get_map_info fs = ⟨0, 0, 0, 0, 0, 0⟩ := by
  have hl : load_grid GRID_JSON_PATH fs = [] := by
    simp [load_grid, h]
  refine ⟨hl, hl, ?_, ?_, ?_⟩ <;>
    simp [get_map, get_map_as_string, get_map_info, get_map_json, hl,
      countVal, String.intercalate]

/-- C6 witness: the empty file store. -/
theorem missing_file_empty_witness :
    load_grid GRID_JSON_PATH (fun _ => none) = [] ∧
    get_map_json (fun _ => none) = [] ∧
    get_map ⟨".", "#", "H"⟩ (fun _ => none) = [] ∧
    get_map_as_string ⟨".", "#", "H"⟩ " " (fun _ => none) = "" ∧
    get_map_info (fun _ => none) = ⟨0, 0, 0, 0, 0, 0⟩ :=
  missing_file_empty (fun _ => none) ⟨".", "#", "H"⟩ " " rfl

/-- The percentage computed by the API consumers
(`tests/test_layout_api.py`, `api/example_usage.py`):
`(count / total) * 100`. -/
def pct (count total : Nat) : Rat :=
  ((count : Rat) / (total : Rat)) * 100

/-- A percentage rendered to one decimal place, in tenths: the nearest
integer to ten times the percentage. -/
def pct_tenths (count total : Nat) : Int :=
  round (pct count total * 10)

/-- C7: on a 3×3 grid with 6 FREE, 2 OBSTACLE and 1 HOME cell,
`get_map_info` reports total 9 with counts 6/2/1, and the consumer-side
percentages render to one decimal place as 66.7, 22.2 and 11.1. -/
theorem map_info_stats (fs : FileStore) (g : Grid)
    (hread : get_map_json fs = g)
    (hrows : g.length = 3) (hcols : ∀ row ∈ g, row.length = 3)
    (hfree : countVal g FREE = 6) (hobs : countVal g OBSTACLE = 2)
    (hhome : countVal g HOME = 1) :
    get_map_info fs = ⟨3, 3, 9, 6, 2, 1⟩ ∧
    pct_tenths 6 9 = 667 ∧ pct_tenths 2 9 = 222 ∧ pct_tenths 1 9 = 111 := by
  refine ⟨?_, by norm_num [pct_tenths, pct, round_eq],
    by norm_num [pct_tenths, pct, round_eq],
    by norm_num [pct_tenths, pct, round_eq]⟩
  have htot : (g.map List.length).sum = 9 := by
    have hall : ∀ x ∈ g.map List.length, x = 3 := by
      intro x hx
      simp only [List.mem_map] at hx
      obtain ⟨row, hrow, rfl⟩ := hx
      exact hcols row hrow
    calc (g.map List.length).sum = (g.map List.length).length • 3 :=
          List.sum_eq_card_nsmul _ 3 hall
      _ = 9 := by simp [hrows]
  have hcol : ((g.head?).getD []).length = 3 := by
    cases g with
    | nil => simp at hrows
    | cons a t => exact hcols a (by simp)
  simp [get_map_info, hread, hrows, hfree, hobs, hhome, htot, List.headD_eq_head?, hcol]

/-- C7 witness: a concrete 3×3 grid with 6 FREE, 2 OBSTACLE and 1 HOME
cell served from the grid file. -/
theorem map_info_stats_witness :
    get_map_info (fun _ => some (encodeGrid [[0, 0, 0], [0, 0, 1], [1, 2, 0]])) =
      ⟨3, 3, 9, 6, 2, 1⟩ ∧
    pct_tenths 6 9 = 667 ∧ pct_tenths 2 9 = 222 ∧ pct_tenths 1 9 = 111 :=
  map_info_stats _ [[0, 0, 0], [0, 0, 1], [1, 2, 0]] rfl rfl
    (by decide) (by decide) (by decide) (by decide)

/-- State of the saved snapshot file `snapshot_raw.png` tested by
`_get_rectified_frame`: absent, present but unreadable (`cv2.imread`
returns None), or a readable image. Images are abstract data supplied by the
external camera and overlay collaborators. -/
inductive SnapshotFile where
  | missing
  | corrupt
  | valid (img : Nat)
deriving DecidableEq

/-- Outcome of the frame-acquisition step of `_get_rectified_frame`: the raw
frame the step ends up with, the snapshot file it leaves behind, and whether
the camera was contacted. -/
structure FrameAcquisition where
  raw : Nat
  saved : SnapshotFile
  fetched_from_camera : Bool
deriving DecidableEq

/-- `_get_rectified_frame`, acquisition part: load the saved snapshot when it
exists and is readable; when it is missing, or exists but `cv2.imread` fails,
fetch from the camera with `fetch_axis_snapshot` and write the fetched frame
back to the snapshot path. -/
def acquire_frame (file : SnapshotFile) (camera : Nat) : FrameAcquisition :=
  match file with
  | SnapshotFile.valid img => ⟨img, SnapshotFile.valid img, false⟩
  | SnapshotFile.corrupt => ⟨camera, SnapshotFile.valid camera, true⟩
  | SnapshotFile.missing => ⟨camera, SnapshotFile.valid camera, true⟩

/-- `_get_rectified_frame`, rectification part: `overlay.transform_image` is
applied to the snapshot path, whose contents after acquisition are exactly
the acquired raw frame. -/
def rectified_frame (transform : Nat → Nat) (file : SnapshotFile)
    (camera : Nat) : Nat :=
  transform (acquire_frame file camera).raw

/-- C8: with the snapshot missing or unreadable, acquisition fetches the
frame from the camera, saves it for next time, and the rectified frame is
produced from that camera frame. -/
theorem acquire_frame_recovers (file : SnapshotFile) (camera : Nat)
    (transform : Nat → Nat)
    (h : file = SnapshotFile.missing ∨ file = SnapshotFile.corrupt) :
    acquire_frame file camera = ⟨camera, SnapshotFile.valid camera, true⟩ ∧
    rectified_frame transform file camera = transform camera := by
  rcases h with rfl | rfl <;> exact ⟨rfl, rfl⟩

/-- C8 witness: a missing snapshot with camera frame 7. -/
theorem acquire_frame_recovers_witness :
    acquire_frame SnapshotFile.missing 7 = ⟨7, SnapshotFile.valid 7, true⟩ ∧
    rectified_frame (fun n => n + 1) SnapshotFile.missing 7 = 8 :=
  acquire_frame_recovers SnapshotFile.missing 7 (fun n => n + 1) (Or.inl rfl)

/-- Outcome of the entry point `main` of `editor_prototype.py`: either a
fatal error raised with a message and carrying no editor state, or the
editor launched from the calibration file. -/
inductive MainOutcome where
  | fatal (msg : String)
  | launched (calibration_path : String)
deriving DecidableEq

/-- `main` from `editor_prototype.py`: test that the calibration file
`overlay/gps_overlay.json` exists; raise `FileNotFoundError` when it does
not, and only otherwise construct the `GPSOverlay` and call `run_editor`. -/
def CALIBRATION_ERROR : String :=
  "GPS overlay configuration not found at overlay/gps_overlay.json. Please ensure gps_overlay.json exists in the overlay/ folder."

def main_entry (overlay_path_exists : Bool) : MainOutcome :=
  if overlay_path_exists = false then
    MainOutcome.fatal CALIBRATION_ERROR
  else
    MainOutcome.launched "overlay/gps_overlay.json"

set_option maxRecDepth 4000 in
/-- C9: with the calibration file missing, `main` raises a fatal error whose
message is nonempty, and the `launched` outcome carrying editor state never
arises. -/
theorem main_entry_missing_calibration :
    main_entry false = MainOutcome.fatal CALIBRATION_ERROR ∧
    0 < CALIBRATION_ERROR.length :=
  ⟨rfl, by decide⟩

/-- C10: the next-state lookup is a partial map defined only on the three
states: every other integer raises `KeyError` on click (no grid results),
and such values are reachable because `_seed_grid` copies persisted
integers without range validation. -/
theorem next_state_partial (v : Int)
    (h1 : v ≠ FREE) (h2 : v ≠ OBSTACLE) (h3 : v ≠ HOME) :
    next_state v = none ∧
    seed_grid 1 1 [[v]] = [[v]] ∧
    handle_mouse EVENT_LBUTTONDOWN 0 0
      { grid := [[v]], overlay := fun _ _ => ⟨0, 0, true⟩,
        offset_x := 0, offset_y := 0 } = none := by
  have hn : next_state v = none := by
    simp [next_state, h1, h2, h3]
  refine ⟨hn, rfl, ?_⟩
  simp [handle_mouse, rectified_to_grid_cell, hn]

/-- C10 witness: the out-of-range value 5. -/
theorem next_state_partial_witness :
    next_state 5 = none ∧
    seed_grid 1 1 [[5]] = [[5]] ∧
    handle_mouse EVENT_LBUTTONDOWN 0 0
      { grid := [[5]], overlay := fun _ _ => ⟨0, 0, true⟩,
        offset_x := 0, offset_y := 0 } = none :=
  next_state_partial 5 (by decide) (by decide) (by decide)

end MermaidLayout
